import Mathlib

/-!
Verification of the ds18b20 1-Wire driver crate.

Shallow embedding of the crate's core: the CRC8 checksum (`src/crc8.rs`),
the ROM address type (`src/rom.rs`), the device handle (`src/lib.rs`),
the configuration register (`src/scratchpad.rs`), the timing profiles
(`src/configuration.rs` and the `standard` module of `src/lib.rs`), the
memory commands (`src/commands/memory.rs` and `src/command/memory.rs`)
and the ROM search engine (`src/commands/rom.rs`).

Machine integers (`u8`, `u64`, `i8`) are embedded as `Nat`/`Int`; the
bitwise operations used by the crate (`^`, `&`, `|`, `>>`, `<<`) never
overflow their width on the values the code manipulates, so no extra
masking is introduced except where Rust's `!mask` complement on `u64`
requires an explicit 64-bit complement (`NOT64`).

Bus effects are made explicit: a read-bit source is a stream
`Nat → Bool`, and the bytes/bits a command writes are returned as a log.
-/

set_option maxRecDepth 100000

namespace DS18B20

/-- One shift-and-conditional-XOR step of the Dallas/Maxim CRC8
(`src/crc8.rs`, the inner loop of `calculate`): save the low bit, shift
right, and XOR with `0x8C` when the shifted-out bit was set. -/
def crc8Round (crc : Nat) : Nat :=
  if crc &&& 1 ≠ 0 then (crc >>> 1) ^^^ 0x8C else crc >>> 1

/-- Processing of one data byte by `crc8::calculate`: XOR the byte into
the accumulator, then run eight `crc8Round` steps. -/
def crc8Byte (crc byte : Nat) : Nat :=
  crc8Round^[8] (crc ^^^ byte)

/-- `crc8::calculate`: fold `crc8Byte` over the data, accumulator
starting at 0. -/
def calculate (data : List Nat) : Nat :=
  data.foldl crc8Byte 0

/-- The error conditions raised by the code paths embedded here:
`MismatchedCrc` from `src/crc8.rs`, `MismatchedFamilyCode` and
`NoAttachedDevices` from `src/lib.rs` and `src/commands/rom.rs`,
`Timeout` from the recall commands, `UnexpectedConfigurationRegister`
from `src/scratchpad.rs`. -/
inductive Error where
  | BusNotHigh
  | NoAttachedDevices
  | Timeout
  | MismatchedCrc (crc8 : Nat)
  | MismatchedFamilyCode
  | UnexpectedConfigurationRegister (configuration_register : Nat)
deriving DecidableEq

/-- `crc8::check`: succeeds exactly when `calculate` of the data is 0,
otherwise fails with `MismatchedCrc` carrying the computed remainder. -/
def crc8Check (data : List Nat) : Except Error Unit :=
  if calculate data = 0 then .ok () else .error (.MismatchedCrc (calculate data))

/-- An 8-byte array `[u8; 8]`, with one field per index. -/
structure Bytes8 where
  b0 : Nat
  b1 : Nat
  b2 : Nat
  b3 : Nat
  b4 : Nat
  b5 : Nat
  b6 : Nat
  b7 : Nat
deriving DecidableEq

/-- The bytes of a `Bytes8` in index order. -/
def Bytes8.toList (b : Bytes8) : List Nat :=
  [b.b0, b.b1, b.b2, b.b3, b.b4, b.b5, b.b6, b.b7]

/-- The 6-byte serial number field of a ROM code. -/
structure SerialNumber where
  s0 : Nat
  s1 : Nat
  s2 : Nat
  s3 : Nat
  s4 : Nat
  s5 : Nat
deriving DecidableEq

/-- `Rom` (`src/rom.rs`): family code, 6-byte serial number, CRC byte. -/
structure Rom where
  family_code : Nat
  serial_number : SerialNumber
  crc : Nat
deriving DecidableEq

/-- `TryFrom<[u8; 8]> for Rom` (`src/rom.rs`): run `crc8::check` on all
8 bytes, then build the `Rom` from bytes 0, 1..=6 and 7. -/
def Rom.tryFrom (value : Bytes8) : Except Error Rom :=
  match crc8Check value.toList with
  | .error e => .error e
  | .ok _ =>
    .ok { family_code := value.b0
          serial_number := ⟨value.b1, value.b2, value.b3, value.b4, value.b5, value.b6⟩
          crc := value.b7 }

/-- `From<Rom> for [u8; 8]` (`src/rom.rs`): family code, the six serial
bytes, then the CRC byte. -/
def Rom.toBytes (r : Rom) : Bytes8 :=
  ⟨r.family_code, r.serial_number.s0, r.serial_number.s1, r.serial_number.s2,
   r.serial_number.s3, r.serial_number.s4, r.serial_number.s5, r.crc⟩

/-- `u64::to_le_bytes`: little-endian byte decomposition of a 64-bit value. -/
def u64ToLeBytes (v : Nat) : Bytes8 :=
  ⟨v % 256, (v >>> 8) % 256, (v >>> 16) % 256, (v >>> 24) % 256,
   (v >>> 32) % 256, (v >>> 40) % 256, (v >>> 48) % 256, (v >>> 56) % 256⟩

/-- `TryFrom<u64> for Rom` (`src/rom.rs`): go through the little-endian
bytes. -/
def Rom.tryFromU64 (v : Nat) : Except Error Rom :=
  Rom.tryFrom (u64ToLeBytes v)

/-- `FAMILY_CODE` (`src/lib.rs`). -/
def FAMILY_CODE : Nat := 0x28

/-- The `Ds18b20` device handle (`src/lib.rs`). -/
structure Ds18b20 where
  rom : Rom
deriving DecidableEq

/-- `Ds18b20::new` (`src/lib.rs`): accept the ROM exactly when its
family code is `FAMILY_CODE`, otherwise fail with
`MismatchedFamilyCode`. -/
def Ds18b20.new (rom : Rom) : Except Error Ds18b20 :=
  if rom.family_code = FAMILY_CODE then .ok ⟨rom⟩ else .error .MismatchedFamilyCode

/-- `Resolution` (`src/scratchpad.rs`). -/
inductive Resolution where
  | Nine
  | Ten
  | Eleven
  | Twelve
deriving DecidableEq

/-- The valid configuration register byte for 9-bit resolution. -/
def NINE : Nat := 0b00011111

/-- The valid configuration register byte for 10-bit resolution. -/
def TEN : Nat := 0b00111111

/-- The valid configuration register byte for 11-bit resolution. -/
def ELEVEN : Nat := 0b01011111

/-- The valid configuration register byte for 12-bit resolution. -/
def TWELVE : Nat := 0b01111111

/-- `ConfigurationRegister` (`src/scratchpad.rs`). -/
structure ConfigurationRegister where
  resolution : Resolution
deriving DecidableEq

/-- `TryFrom<u8> for ConfigurationRegister` (`src/scratchpad.rs`):
the four fixed byte patterns decode to their resolutions; anything else
fails with `UnexpectedConfigurationRegister` carrying the byte. -/
def ConfigurationRegister.tryFrom (value : Nat) : Except Error ConfigurationRegister :=
  if value = NINE then .ok ⟨.Nine⟩
  else if value = TEN then .ok ⟨.Ten⟩
  else if value = ELEVEN then .ok ⟨.Eleven⟩
  else if value = TWELVE then .ok ⟨.Twelve⟩
  else .error (.UnexpectedConfigurationRegister value)

/-- `From<ConfigurationRegister> for u8` (`src/scratchpad.rs`). -/
def ConfigurationRegister.toU8 (c : ConfigurationRegister) : Nat :=
  match c.resolution with
  | .Nine => NINE
  | .Ten => TEN
  | .Eleven => ELEVEN
  | .Twelve => TWELVE

/-- The `Triggers` pair of `i8` alarm thresholds (`src/scratchpad.rs`). -/
structure Triggers where
  high : Int
  low : Int
deriving DecidableEq

/-- `Scratchpad` (`src/scratchpad.rs`). The `f32` temperature field is
embedded as a rational; no claim examined here depends on it. -/
structure Scratchpad where
  temperature : Rat
  configuration_register : ConfigurationRegister
  triggers : Triggers
  crc : Nat
deriving DecidableEq

/-- Rust's `i8 as u8` cast: the value modulo 256. -/
def i8AsU8 (v : Int) : Nat :=
  (v % 256).toNat

/-- Rust's `Resolution as u8` cast in `src/command/memory.rs`: the enum
discriminant (declaration order in `src/scratchpad.rs`). -/
def resolutionAsU8 : Resolution → Nat
  | .Nine => 0
  | .Ten => 1
  | .Eleven => 2
  | .Twelve => 3

/-- `COMMAND_MEMORY_RECALL` (`src/commands/memory.rs`). -/
def COMMAND_MEMORY_RECALL : Nat := 0xB8

/-- `COMMAND_MEMORY_SCRATCHPAD_WRITE` (`src/commands/memory.rs`). -/
def COMMAND_MEMORY_SCRATCHPAD_WRITE : Nat := 0x4E

/-- `READ_SLOT_DURATION_MICROS` (`src/commands/memory.rs`). -/
def READ_SLOT_DURATION_MICROS : Nat := 70

/-- The retry budget of the recall commands:
`(10000 / READ_SLOT_DURATION_MICROS) + 1`. -/
def max_retries : Nat := 10000 / READ_SLOT_DURATION_MICROS + 1

/-- The poll loop of `recall_eeprom` / `RecallE2::execute`: read one bit
per iteration from the stream, succeed at the first `true`, fail with
`Timeout` when the budget is exhausted. -/
def recallLoop (stream : Nat → Bool) : Nat → Nat → Except Error Unit
  | _, 0 => .error .Timeout
  | index, fuel + 1 =>
    if stream index then .ok () else recallLoop stream (index + 1) fuel

/-- `recall_eeprom` (`src/commands/memory.rs`, identically
`RecallE2::execute` in `src/command/memory.rs`): write the command byte
`0xB8`, then poll up to `max_retries` read slots. Returns the write log
and the outcome. -/
def recall_eeprom (stream : Nat → Bool) : List Nat × Except Error Unit :=
  ([COMMAND_MEMORY_RECALL], recallLoop stream 0 max_retries)

/-- `write_scratchpad` (`src/commands/memory.rs`): the byte sequence
written on the bus — command byte, high trigger, low trigger,
configuration register byte. -/
def write_scratchpad (s : Scratchpad) : List Nat :=
  [COMMAND_MEMORY_SCRATCHPAD_WRITE, i8AsU8 s.triggers.high, i8AsU8 s.triggers.low,
   ConfigurationRegister.toU8 s.configuration_register]

/-- `WriteScratchpad::execute` (`src/command/memory.rs`): the byte
sequence written on the bus — command byte, low trigger, high trigger,
then the resolution cast `as u8`. -/
def WriteScratchpad_execute (s : Scratchpad) : List Nat :=
  [COMMAND_MEMORY_SCRATCHPAD_WRITE, i8AsU8 s.triggers.low, i8AsU8 s.triggers.high,
   resolutionAsU8 s.configuration_register.resolution]

/-- `Configuration` (`src/configuration.rs`): the ten named intervals of
a timing profile, in nanoseconds. -/
structure Configuration where
  a : Nat
  b : Nat
  c : Nat
  d : Nat
  e : Nat
  f : Nat
  g : Nat
  h : Nat
  i : Nat
  j : Nat
deriving DecidableEq

/-- `Configuration::overdrive` (`src/configuration.rs`). -/
def Configuration.overdrive : Configuration :=
  ⟨1000, 7500, 7500, 2500, 1000, 7000, 2500, 70000, 8500, 40000⟩

/-- `Configuration::standard` (`src/configuration.rs`). -/
def Configuration.standard : Configuration :=
  ⟨6000, 64000, 60000, 10000, 9000, 55000, 0, 480000, 70000, 410000⟩

namespace standard

/-- Interval A of the `standard` module in `src/lib.rs` (µs). -/
def A : Nat := 6

/-- Interval B of the `standard` module in `src/lib.rs` (µs). -/
def B : Nat := 64

/-- Interval C of the `standard` module in `src/lib.rs` (µs). -/
def C : Nat := 60

/-- Interval D of the `standard` module in `src/lib.rs` (µs). -/
def D : Nat := 10

end standard

/-- `Driver::write_bit` (`src/lib.rs`): the pair of delays performed
for one write slot — low-phase then high-phase, `(A, B)` for a 1 bit and
`(C, D)` for a 0 bit, using the `standard` constants. -/
def write_bit_delays (bit : Bool) : Nat × Nat :=
  (if bit then standard.A else standard.C, if bit then standard.B else standard.D)

/-- The 64-bit complement `!mask` of Rust `u64`. -/
def NOT64 (m : Nat) : Nat :=
  (2 ^ 64 - 1) ^^^ m

/-- One bit position of `SearchRom::execute` (`src/commands/rom.rs`):
given the two complementary bits read from the bus, the arm taken by the
`match`. Returns the updated accumulator and the bit written back, or
`none` for the `(1,1)` no-device arm. -/
def executeStep (conflicts code mask : Nat) : Bool × Bool → Option (Nat × Bool)
  | (false, false) =>
    if conflicts &&& mask = 0 then some (code &&& NOT64 mask, false)
    else some (code ||| mask, true)
  | (false, true) => some (code ||| mask, false)
  | (true, false) => some (code &&& NOT64 mask, true)
  | (true, true) => none

/-- The 64-iteration bit loop of `SearchRom::execute`: index `i` reads
stream positions `2*i` and `2*i+1`, accumulates into `code` with
`mask = 1 << i`, and logs each bit written back to the bus. -/
def executeLoop (conflicts : Nat) (stream : Nat → Bool) :
    Nat → Nat → Nat → List Bool → Option (Nat × List Bool)
  | _, 0, code, writes => some (code, writes.reverse)
  | index, fuel + 1, code, writes =>
    match executeStep conflicts code (1 <<< index) (stream (2 * index), stream (2 * index + 1)) with
    | none => none
    | some (code2, w) => executeLoop conflicts stream (index + 1) fuel code2 (w :: writes)

/-- `SearchRom::execute` (`src/commands/rom.rs`): fail without presence,
run the 64-bit loop, then convert the accumulated `u64` through
`Rom::try_from` (which validates the CRC). The log of bits written to
the bus is returned next to the address. -/
def SearchRom_execute (conflicts : Nat) (presence : Bool) (stream : Nat → Bool) :
    Except Error (Rom × List Bool) :=
  if presence = false then .error .NoAttachedDevices
  else
    match executeLoop conflicts stream 0 64 0 [] with
    | none => .error .NoAttachedDevices
    | some (code, writes) =>
      match Rom.tryFromU64 code with
      | .error e => .error e
      | .ok rom => .ok (rom, writes)

/-- Modelled from the spec: the read trace a single responding device
with address `a` produces under wired-AND — for bit index `i` the first
read slot returns the device's bit and the second returns its
complement. -/
def traceOf (a : Nat) : Nat → Bool :=
  fun n => if n % 2 = 0 then a.testBit (n / 2) else !a.testBit (n / 2)

/-- Modelled from the spec: one pair of read slots on a simulated
wired-AND bus — the line is the AND of what the active devices drive, so
the first read is the AND of their bits at `index` and the second the
AND of the complements; with no active device both reads are high. -/
def wiredAndReads (active : List Nat) (index : Nat) : Bool × Bool :=
  (active.all fun d => d.testBit index, active.all fun d => !d.testBit index)

/-- The 64-iteration bit loop of `SearchRom::search`
(`src/commands/rom.rs`) run against a simulated wired-AND bus: the
`(0,0)` arm first XORs the mask into `conflicts` and branches on whether
the result XOR the mask is zero; after each written bit the devices
whose bit disagrees drop out. Returns the final `conflicts` and the
accumulated code or the `(1,1)` error. -/
def searchLoop : Nat → Nat → Nat → Nat → List Nat → Nat × Except Error Nat
  | _, 0, conflicts, code, _ => (conflicts, .ok code)
  | index, fuel + 1, conflicts, code, active =>
    let mask := 1 <<< index
    match wiredAndReads active index with
    | (false, false) =>
      let c1 := conflicts ^^^ mask
      if c1 ^^^ mask = 0 then
        searchLoop (index + 1) fuel (c1 ||| mask) (code &&& NOT64 mask)
          (active.filter fun d => d.testBit index = false)
      else
        searchLoop (index + 1) fuel (c1 &&& NOT64 mask) (code ||| mask)
          (active.filter fun d => d.testBit index = true)
    | (false, true) =>
      searchLoop (index + 1) fuel conflicts (code ||| mask)
        (active.filter fun d => d.testBit index = false)
    | (true, false) =>
      searchLoop (index + 1) fuel conflicts (code &&& NOT64 mask)
        (active.filter fun d => d.testBit index = true)
    | (true, true) => (conflicts, .error .NoAttachedDevices)

/-- One pass of `SearchRom::search` (`src/commands/rom.rs`) against a
simulated bus holding `devices`: presence iff some device is attached,
then the 64-bit loop, then `Rom::try_from` on the accumulated `u64`.
Returns the updated conflict mask of the search state next to the
result. -/
def searchPass (conflicts : Nat) (devices : List Nat) : Nat × Except Error Rom :=
  if devices.isEmpty then (conflicts, .error .NoAttachedDevices)
  else
    match searchLoop 0 64 conflicts 0 devices with
    | (c2, .error e) => (c2, .error e)
    | (c2, .ok code) => (c2, Rom.tryFromU64 code)

/-- Folding one more byte into the CRC accumulator. -/
theorem calculate_append (d : List Nat) (x : Nat) :
    calculate (d ++ [x]) = crc8Byte (calculate d) x := by
  simp [calculate, List.foldl_append]

/-- Processing a byte equal to the current accumulator yields 0. -/
theorem crc8Byte_self (c : Nat) : crc8Byte c c = 0 := by
  unfold crc8Byte
  rw [Nat.xor_self]
  exact Function.iterate_fixed (by decide) 8

/-- Unfolding of one recall poll iteration. -/
theorem recallLoop_succ (stream : Nat → Bool) (idx fuel : Nat) :
    recallLoop stream idx (fuel + 1) =
      if stream idx then .ok () else recallLoop stream (idx + 1) fuel := rfl

/-- The recall poll loop succeeds exactly when some polled slot within
the budget reads 1. -/
theorem recallLoop_ok_iff (stream : Nat → Bool) :
    ∀ fuel idx, recallLoop stream idx fuel = .ok () ↔
      ∃ j, j < fuel ∧ stream (idx + j) = true := by
  intro fuel
  induction fuel with
  | zero => intro idx; simp [recallLoop]
  | succ f ih =>
    intro idx
    rw [recallLoop_succ]
    by_cases h : stream idx = true
    · rw [if_pos h]
      constructor
      · intro _
        exact ⟨0, Nat.succ_pos f, by simpa using h⟩
      · intro _
        rfl
    · rw [if_neg h, ih (idx + 1)]
      constructor
      · rintro ⟨j, hj, hs⟩
        refine ⟨j + 1, by omega, ?_⟩
        have hidx : idx + (j + 1) = idx + 1 + j := by omega
        rw [hidx]
        exact hs
      · rintro ⟨j, hj, hs⟩
        cases j with
        | zero => exact absurd (by simpa using hs) h
        | succ k =>
          refine ⟨k, by omega, ?_⟩
          have hidx : idx + 1 + k = idx + (k + 1) := by omega
          rw [hidx]
          exact hs

/-- The recall poll loop has only two outcomes: success or `Timeout`. -/
theorem recallLoop_cases (stream : Nat → Bool) :
    ∀ fuel idx, recallLoop stream idx fuel = .ok () ∨
      recallLoop stream idx fuel = .error .Timeout := by
  intro fuel
  induction fuel with
  | zero => intro idx; right; rfl
  | succ f ih =>
    intro idx
    rw [recallLoop_succ]
    by_cases h : stream idx = true
    · left; rw [if_pos h]
    · rw [if_neg h]; exact ih (idx + 1)

/-- C3: for every byte sequence `d`, `crc8::calculate` applied to `d`
with `calculate d` appended returns 0; concretely
`calculate [99,1,75,70,127,255,13,16] = 21` and appending 21 yields 0. -/
theorem C3_crc8_self_check :
    (∀ d : List Nat, calculate (d ++ [calculate d]) = 0) ∧
    calculate [99, 1, 75, 70, 127, 255, 13, 16] = 21 ∧
    calculate [99, 1, 75, 70, 127, 255, 13, 16, 21] = 0 :=
  ⟨fun d => by rw [calculate_append, crc8Byte_self], by decide, by decide⟩

/-- C4: `Rom::try_from` on an 8-byte array fails with `MismatchedCrc`
carrying the computed remainder exactly when the CRC8 over all 8 bytes
is nonzero, otherwise succeeds with family code, serial and CRC taken
from bytes 0, 1..=6 and 7; every successfully constructed `Rom` has CRC8
zero over its 8 bytes. -/
theorem C4_rom_try_from :
    ∀ b : Bytes8,
      (calculate b.toList ≠ 0 →
        Rom.tryFrom b = .error (.MismatchedCrc (calculate b.toList))) ∧
      (calculate b.toList = 0 →
        Rom.tryFrom b = .ok ⟨b.b0, ⟨b.b1, b.b2, b.b3, b.b4, b.b5, b.b6⟩, b.b7⟩) ∧
      (∀ r : Rom, Rom.tryFrom b = .ok r → calculate (Rom.toBytes r).toList = 0) := by
  intro b
  refine ⟨?_, ?_, ?_⟩
  · intro h
    unfold Rom.tryFrom crc8Check
    rw [if_neg h]
  · intro h
    unfold Rom.tryFrom crc8Check
    rw [if_pos h]
  · intro r h
    by_cases h0 : calculate b.toList = 0
    · unfold Rom.tryFrom crc8Check at h
      rw [if_pos h0] at h
      injection h with h1
      rw [← h1]
      simpa only [Rom.toBytes, Bytes8.toList] using h0
    · unfold Rom.tryFrom crc8Check at h
      rw [if_neg h0] at h
      exact Except.noConfusion h

/-- Witness for C4 at concrete inputs: the repository's own test vector
`0x1E_000000000000_28` succeeds, and zeroing its CRC byte fails. -/
theorem C4_rom_try_from_witness :
    Rom.tryFrom ⟨0x28, 0, 0, 0, 0, 0, 0, 0x1E⟩ =
      .ok ⟨0x28, ⟨0, 0, 0, 0, 0, 0⟩, 0x1E⟩ ∧
    Rom.tryFrom ⟨0x28, 0, 0, 0, 0, 0, 0, 0⟩ =
      .error (.MismatchedCrc (calculate (Bytes8.toList ⟨0x28, 0, 0, 0, 0, 0, 0, 0⟩))) :=
  ⟨(C4_rom_try_from _).2.1 (by decide), (C4_rom_try_from _).1 (by decide)⟩

/-- C9: encoding a CRC-valid `Rom` to its 8 bytes and constructing a
`Rom` back succeeds and yields exactly the original value. -/
theorem C9_rom_roundtrip :
    ∀ r : Rom, calculate (Rom.toBytes r).toList = 0 →
      Rom.tryFrom (Rom.toBytes r) = .ok r := by
  intro r h
  obtain ⟨fc, ⟨s0, s1, s2, s3, s4, s5⟩, crc⟩ := r
  unfold Rom.tryFrom crc8Check
  rw [if_pos h]
  rfl

/-- Witness for C9 at the repository's own test vector. -/
theorem C9_rom_roundtrip_witness :
    Rom.tryFrom (Rom.toBytes ⟨0x28, ⟨0, 0, 0, 0, 0, 0⟩, 0x1E⟩) =
      .ok ⟨0x28, ⟨0, 0, 0, 0, 0, 0⟩, 0x1E⟩ :=
  C9_rom_roundtrip _ (by decide)

/-- C10: `Ds18b20::new` succeeds exactly when the ROM's family code is
`FAMILY_CODE = 0x28`, fails with `MismatchedFamilyCode` otherwise, and
the device handle returns the identical ROM. -/
theorem C10_ds18b20_new :
    ∀ r : Rom,
      (r.family_code = FAMILY_CODE →
        Ds18b20.new r = .ok ⟨r⟩ ∧ (Ds18b20.mk r).rom = r) ∧
      (r.family_code ≠ FAMILY_CODE →
        Ds18b20.new r = .error .MismatchedFamilyCode) := by
  intro r
  constructor
  · intro h
    exact ⟨by simp [Ds18b20.new, h], rfl⟩
  · intro h
    simp [Ds18b20.new, h]

/-- Witness for C10: family code `0x28` is accepted, `0x29` rejected. -/
theorem C10_ds18b20_new_witness :
    Ds18b20.new ⟨0x28, ⟨0, 0, 0, 0, 0, 0⟩, 0x1E⟩ =
      .ok ⟨⟨0x28, ⟨0, 0, 0, 0, 0, 0⟩, 0x1E⟩⟩ ∧
    Ds18b20.new ⟨0x29, ⟨0, 0, 0, 0, 0, 0⟩, 0x1E⟩ = .error .MismatchedFamilyCode :=
  ⟨((C10_ds18b20_new _).1 (by decide)).1, (C10_ds18b20_new _).2 (by decide)⟩

/-- C8: `ConfigurationRegister::try_from` succeeds exactly on the four
fixed byte patterns, mapping them to 9/10/11/12-bit resolution so that
re-encoding yields the identical byte, and fails on every other byte
with `UnexpectedConfigurationRegister` carrying that byte. -/
theorem C8_configuration_register_roundtrip :
    (ConfigurationRegister.tryFrom NINE = .ok ⟨.Nine⟩ ∧
      ConfigurationRegister.toU8 ⟨.Nine⟩ = NINE) ∧
    (ConfigurationRegister.tryFrom TEN = .ok ⟨.Ten⟩ ∧
      ConfigurationRegister.toU8 ⟨.Ten⟩ = TEN) ∧
    (ConfigurationRegister.tryFrom ELEVEN = .ok ⟨.Eleven⟩ ∧
      ConfigurationRegister.toU8 ⟨.Eleven⟩ = ELEVEN) ∧
    (ConfigurationRegister.tryFrom TWELVE = .ok ⟨.Twelve⟩ ∧
      ConfigurationRegister.toU8 ⟨.Twelve⟩ = TWELVE) ∧
    (∀ c : ConfigurationRegister,
      ConfigurationRegister.tryFrom (ConfigurationRegister.toU8 c) = .ok c) ∧
    (∀ v : Nat, v ≠ NINE → v ≠ TEN → v ≠ ELEVEN → v ≠ TWELVE →
      ConfigurationRegister.tryFrom v = .error (.UnexpectedConfigurationRegister v)) := by
  refine ⟨⟨rfl, rfl⟩, ⟨rfl, rfl⟩, ⟨rfl, rfl⟩, ⟨rfl, rfl⟩, ?_, ?_⟩
  · intro c
    obtain ⟨res⟩ := c
    cases res <;> rfl
  · intro v h1 h2 h3 h4
    simp [ConfigurationRegister.tryFrom, h1, h2, h3, h4]

/-- Witness for C8: byte 0 is rejected carrying the byte itself. -/
theorem C8_configuration_register_roundtrip_witness :
    ConfigurationRegister.tryFrom 0 = .error (.UnexpectedConfigurationRegister 0) :=
  C8_configuration_register_roundtrip.2.2.2.2.2 0 (by decide) (by decide) (by decide) (by decide)

/-- C5: the recall command writes `0xB8`, polls at most
`(10000 / 70) + 1 = 143` read slots, succeeds exactly when some polled
bit within the budget reads 1 and times out exactly when every poll
reads 0; a slave busy for the first 142 polls (9,999 µs worth at 70 µs
each) then ready completes successfully. -/
theorem C5_recall_eeprom :
    max_retries = 143 ∧
    (∀ stream : Nat → Bool, (recall_eeprom stream).1 = [0xB8]) ∧
    (∀ stream : Nat → Bool,
      ((recall_eeprom stream).2 = .ok () ↔ ∃ i, i < max_retries ∧ stream i = true)) ∧
    (∀ stream : Nat → Bool,
      ((recall_eeprom stream).2 = .error .Timeout ↔
        ∀ i, i < max_retries → stream i = false)) ∧
    (recall_eeprom (fun i => decide (142 ≤ i))).2 = .ok () := by
  have hok : ∀ stream : Nat → Bool,
      ((recall_eeprom stream).2 = .ok () ↔ ∃ i, i < max_retries ∧ stream i = true) := by
    intro stream
    simpa using recallLoop_ok_iff stream max_retries 0
  refine ⟨rfl, fun _ => rfl, hok, ?_, ?_⟩
  · intro stream
    constructor
    · intro ht i hi
      by_contra hs
      have hs' : stream i = true := by simpa using hs
      have : (recall_eeprom stream).2 = .ok () := (hok stream).2 ⟨i, hi, hs'⟩
      rw [this] at ht
      exact Except.noConfusion ht
    · intro hall
      rcases recallLoop_cases stream max_retries 0 with hO | hT
      · exfalso
        obtain ⟨j, hj, hs⟩ := (hok stream).1 (by simpa [recall_eeprom] using hO)
        rw [hall j hj] at hs
        exact Bool.noConfusion hs
      · simpa [recall_eeprom] using hT
  · exact (hok _).2 ⟨142, by decide, by decide⟩

/-- Witness for C5: an always-ready slave succeeds, an always-busy one
times out. -/
theorem C5_recall_eeprom_witness :
    (recall_eeprom (fun _ => true)).2 = .ok () ∧
    (recall_eeprom (fun _ => false)).2 = .error .Timeout :=
  ⟨(C5_recall_eeprom.2.2.1 (fun _ => true)).2 ⟨0, by decide, rfl⟩,
   (C5_recall_eeprom.2.2.2.1 (fun _ => false)).2 (fun _ _ => rfl)⟩

/-- C7 counterexample: in the overdrive profile the write-1 delay pair
`(a, b)` and the write-0 pair `(c, d)` do not sum to the same total. -/
theorem C7_write_slot_total_counterexample :
    ¬ (Configuration.overdrive.a + Configuration.overdrive.b =
        Configuration.overdrive.c + Configuration.overdrive.d) := by decide

/-- C7 as amended: the standard-profile write-slot delay pairs both sum
to 70 µs (70000 ns in `Configuration::standard`), but the overdrive
pairs sum to 8500 ns for a 1 bit and 10000 ns for a 0 bit. -/
theorem C7_write_slot_symmetry_amended :
    ((write_bit_delays true).1 + (write_bit_delays true).2 = 70 ∧
      (write_bit_delays false).1 + (write_bit_delays false).2 = 70) ∧
    (Configuration.standard.a + Configuration.standard.b = 70000 ∧
      Configuration.standard.c + Configuration.standard.d = 70000) ∧
    (Configuration.overdrive.a + Configuration.overdrive.b = 8500 ∧
      Configuration.overdrive.c + Configuration.overdrive.d = 10000) := by decide

/-- C6: at a concrete scratchpad (high trigger 1, low trigger 2, 12-bit
resolution) the trait implementation `write_scratchpad` emits the
command byte then high, low, configuration-register byte as the claim
states, while `WriteScratchpad::execute` emits low, high, then the
resolution discriminant instead. -/
theorem C6_write_scratchpad_order :
    write_scratchpad ⟨0, ⟨.Twelve⟩, ⟨1, 2⟩, 0⟩ = [0x4E, 1, 2, 0x7F] ∧
    WriteScratchpad_execute ⟨0, ⟨.Twelve⟩, ⟨1, 2⟩, 0⟩ = [0x4E, 2, 1, 3] :=
  ⟨rfl, rfl⟩

/-- C1 counterexample: on the bus trace of a single device whose bits
are the complement of the CRC-valid address `0x1E00000000000028`, the
Search ROM transaction succeeds and returns an address whose bit 0 is 0
(family code `0x28`), yet the bit written back to the bus at position 0
was 1 — the written bit differs from the stored bit. -/
theorem C1_search_rom_written_vs_stored_counterexample :
    (SearchRom_execute 0 true (traceOf 0xE1FFFFFFFFFFFFD7)).toOption.map
      (fun p => (Nat.testBit p.1.family_code 0, p.2.getD 0 false)) =
      some (false, true) := by decide

/-- C1 as amended: at each bit position, in the `(0,1)` arm the bit 1 is
stored at that position but 0 is written back, in the `(1,0)` arm 0 is
stored but 1 is written back, in the conflict `(0,0)` arm the written
bit equals the stored bit, and the `(1,1)` arm aborts. -/
theorem C1_search_rom_bit_selection_amended :
    ∀ conflicts code i : Nat, i < 64 →
      (executeStep conflicts code (1 <<< i) (false, true) =
          some (code ||| 1 <<< i, false) ∧
        Nat.testBit (code ||| 1 <<< i) i = true) ∧
      (executeStep conflicts code (1 <<< i) (true, false) =
          some (code &&& NOT64 (1 <<< i), true) ∧
        Nat.testBit (code &&& NOT64 (1 <<< i)) i = false) ∧
      (∀ c w, executeStep conflicts code (1 <<< i) (false, false) = some (c, w) →
        Nat.testBit c i = w) ∧
      executeStep conflicts code (1 <<< i) (true, true) = none := by
  intro conflicts code i hi
  have hshift : (1 <<< i : Nat) = 2 ^ i := Nat.one_shiftLeft i
  have hor : Nat.testBit (code ||| 1 <<< i) i = true := by
    rw [hshift, Nat.testBit_or, Nat.testBit_two_pow_self, Bool.or_true]
  have hnotbit : Nat.testBit (NOT64 (1 <<< i)) i = false := by
    rw [NOT64, hshift, Nat.testBit_xor, Nat.testBit_two_pow_sub_one,
      Nat.testBit_two_pow_self]
    simp [hi]
  have hand : Nat.testBit (code &&& NOT64 (1 <<< i)) i = false := by
    rw [Nat.testBit_and, hnotbit, Bool.and_false]
  refine ⟨⟨rfl, hor⟩, ⟨rfl, hand⟩, ?_, rfl⟩
  intro c w h
  have heq : executeStep conflicts code (1 <<< i) (false, false) =
      if conflicts &&& 1 <<< i = 0 then some (code &&& NOT64 (1 <<< i), false)
      else some (code ||| 1 <<< i, true) := rfl
  rw [heq] at h
  by_cases hc : conflicts &&& 1 <<< i = 0
  · rw [if_pos hc] at h
    simp only [Option.some.injEq, Prod.mk.injEq] at h
    rw [← h.1, ← h.2]
    exact hand
  · rw [if_neg hc] at h
    simp only [Option.some.injEq, Prod.mk.injEq] at h
    rw [← h.1, ← h.2]
    exact hor

/-- Witness for the amended C1 at position 0. -/
theorem C1_search_rom_bit_selection_amended_witness :
    (0 : Nat) < 64 ∧
    executeStep 0 0 (1 <<< 0) (false, true) = some (0 ||| 1 <<< 0, false) :=
  ⟨by decide, ((C1_search_rom_bit_selection_amended 0 0 0 (by decide)).1).1⟩

/-- C2: on a simulated wired-AND bus holding the single device with the
CRC-valid address `0x1E00000000000028` (the repository's own test
vector), a `SearchRom::search` pass started from a zero conflict mask
does not return the device's address: it accumulates the bitwise
complement, fails with `MismatchedCrc 201`, and leaves the conflict mask
at zero, so no nonzero mask ever signals further passes. The second
conjunct shows the device's address itself converts successfully, so the
failure is the search accumulation, not the address. -/
theorem C2_search_pass_single_device_bug :
    searchPass 0 [0x1E00000000000028] = (0, .error (.MismatchedCrc 201)) ∧
    Rom.tryFromU64 0x1E00000000000028 = .ok ⟨0x28, ⟨0, 0, 0, 0, 0, 0⟩, 0x1E⟩ :=
  ⟨rfl, rfl⟩

end DS18B20
